import Mathlib

/-
Verification of the Scenario 1 Time & Weather agent
(src/scenarios/01-hello-world-agent/time_weather_agent.py and
time_weather_agent_devui.py) against its natural-language specification.

The Python source is shallowly embedded: pure functions become Lean
functions over String; code that can raise becomes Except-valued; the
interactive console loop becomes a recursive function producing a trace
of events; module-level startup becomes an Except-valued initialisation
over an abstract environment. Behaviour that lives outside the repo
(pytz, the LLM oracle, agent_framework) enters as explicit parameters or
is modelled from the spec where noted.
-/

namespace TimeWeather

/-- Model of Python str.lower for the ASCII text this program handles:
maps each uppercase ASCII letter to its lowercase form. -/
def char_lower (c : Char) : Char :=
  if c.toNat ≥ 65 ∧ c.toNat ≤ 90 then Char.ofNat (c.toNat + 32) else c

/-- Model of Python str.lower applied to a whole string. -/
def py_lower (s : String) : String := String.mk (s.data.map char_lower)

/-- Python ASCII whitespace recogniser used by str.strip on this input. -/
def isSpaceChar (c : Char) : Bool :=
  c = ' ' ∨ c = '\t' ∨ c = '\n' ∨ c = '\r'

/-- Model of Python str.strip : drop leading and trailing whitespace. -/
def py_strip (s : String) : String :=
  String.mk (((s.data.dropWhile isSpaceChar).reverse.dropWhile isSpaceChar).reverse)

/-- Apostrophe character, as it appears in the Python message strings. -/
def sq : String := "\x27"

/- ---------------------------------------------------------------
Local tools, from time_weather_agent_devui.py
--------------------------------------------------------------- -/

/-- Embedding of the city_timezones dict literal inside
get_timezone_for_city (time_weather_agent_devui.py lines 90-98). -/
def city_timezones : List (String × String) :=
  [("london", "Europe/London"),
   ("berlin", "Europe/Berlin"),
   ("new york", "America/New_York"),
   ("tokyo", "Asia/Tokyo"),
   ("sydney", "Australia/Sydney"),
   ("seattle", "America/Los_Angeles"),
   ("paris", "Europe/Paris")]

/-- Normalised key used by get_timezone_for_city: city.lower().strip(). -/
def city_key (city : String) : String := py_strip (py_lower city)

/-- Dictionary lookup performed by get_timezone_for_city. -/
def tz_lookup (city : String) : Option String :=
  city_timezones.lookup (city_key city)

/-- Embedding of get_timezone_for_city
(time_weather_agent_devui.py lines 86-104). -/
def get_timezone_for_city (city : String) : String :=
  match tz_lookup city with
  | some tz => "The timezone for " ++ city ++ " is " ++ tz ++ "."
  | none => "Unknown city " ++ sq ++ city ++ sq ++ ". Try a major city name."

/-- Embedding of get_current_time_for_timezone
(time_weather_agent_devui.py lines 74-83). The pytz.timezone lookup is
an explicit parameter returning ok for a valid IANA name and error
(with the exception text) otherwise; the strftime renderings of the
current instant enter as the total parameters time_str and date_str. -/
def get_current_time_for_timezone (pytz_timezone : String → Except String Unit)
    (time_str : String) (date_str : String) (timezone_name : String) : String :=
  match pytz_timezone timezone_name with
  | Except.ok _ =>
      "The current time in " ++ timezone_name ++ " is " ++ time_str ++
        " on " ++ date_str ++ "."
  | Except.error e =>
      "Could not determine time for timezone " ++ sq ++ timezone_name ++ sq ++
        ": " ++ e

/- ---------------------------------------------------------------
Module-level client configuration, identical in both files
(time_weather_agent.py lines 40-49, time_weather_agent_devui.py 41-50)
--------------------------------------------------------------- -/

/-- Python exceptions this module can raise at the embedded level.
syntaxError arises in the compile phase, before any statement runs. -/
inductive PyError where
  | valueError (msg : String)
  | keyError (key : String)
  | nameError (name : String)
  | syntaxError (msg : String)
deriving DecidableEq, Repr

/-- Token and endpoint selected at startup. -/
structure ClientConfig where
  token : String
  endpoint : String
deriving DecidableEq, Repr

/-- Embedding of the credential-selection block: GITHUB_TOKEN wins with
the fixed GitHub endpoint; otherwise AZURE_OPENAI_API_KEY with
AZURE_OPENAI_ENDPOINT (a missing endpoint is a KeyError from
os.environ); otherwise ValueError. The process environment is the
function argument env. -/
def configure_client (env : String → Option String) : Except PyError ClientConfig :=
  match env "GITHUB_TOKEN" with
  | some t => Except.ok { token := t, endpoint := "https://models.github.ai/inference" }
  | none =>
    match env "AZURE_OPENAI_API_KEY" with
    | some k =>
      match env "AZURE_OPENAI_ENDPOINT" with
      | some ep => Except.ok { token := k, endpoint := ep }
      | none => Except.error (PyError.keyError "AZURE_OPENAI_ENDPOINT")
    | none =>
      Except.error (PyError.valueError
        "No API key found. Set GITHUB_TOKEN or AZURE_OPENAI_API_KEY.")

/-- An agent as far as the embedded claims observe it. -/
structure Agent where
  name : String
  hasConfig : ClientConfig
deriving DecidableEq, Repr

/-- Module startup of time_weather_agent.py followed by agent
construction: that file parses, so its credential block runs at import
time, before any ChatAgent is built, and an error there yields no
agent. (time_weather_agent_devui.py is modelled separately below; it
never reaches its credential block because it fails to parse.) -/
def startup_then_agent (env : String → Option String) : Except PyError Agent := do
  let cfg ← configure_client env
  pure { name := "TimeWeatherAgent", hasConfig := cfg }

/- ---------------------------------------------------------------
Startup of time_weather_agent_devui.py: CPython compiles the whole
module before executing any of it, and create_time_weather_agent
(lines 131-144) opens a tools list at line 135 that is never closed,
so compilation fails with SyntaxError
--------------------------------------------------------------- -/

/-- Round and square bracket tokens of the Python source. -/
inductive Bracket where
  | lparen
  | rparen
  | lbrack
  | rbrack
deriving DecidableEq, Repr

/-- The bracket stream of create_time_weather_agent, lines 131-144:
ChatAgent( at 131, tools=[ at 135, the two MCPStreamableHTTPTool(...)
constructor calls at 136-139 and 140-143, and the lone ) at 144. The
closing ] for the tools list is missing from the source. -/
def create_time_weather_agent_brackets : List Bracket :=
  [Bracket.lparen, Bracket.lbrack,
   Bracket.lparen, Bracket.rparen,
   Bracket.lparen, Bracket.rparen,
   Bracket.rparen]

/-- Stack-based bracket matching, as the CPython tokenizer performs it:
every closing token must match the most recent open one, and nothing
may stay open at the end. -/
def match_brackets : List Bracket → List Bracket → Except String Unit
  | [], [] => Except.ok ()
  | _ :: _, [] => Except.error "unexpected end of input with open bracket"
  | stack, Bracket.lparen :: rest => match_brackets (Bracket.lparen :: stack) rest
  | stack, Bracket.lbrack :: rest => match_brackets (Bracket.lbrack :: stack) rest
  | Bracket.lparen :: stack, Bracket.rparen :: rest => match_brackets stack rest
  | Bracket.lbrack :: stack, Bracket.rbrack :: rest => match_brackets stack rest
  | _, Bracket.rparen :: _ =>
      Except.error "closing parenthesis does not match opening bracket"
  | _, Bracket.rbrack :: _ =>
      Except.error "closing bracket does not match opening parenthesis"

/-- Compiling time_weather_agent_devui.py: the unbalanced brackets of
create_time_weather_agent make the whole module fail to parse. -/
def devui_parse : Except PyError Unit :=
  match match_brackets [] create_time_weather_agent_brackets with
  | Except.ok _ => Except.ok ()
  | Except.error m => Except.error (PyError.syntaxError m)

/-- Startup of time_weather_agent_devui.py: the parse phase precedes
execution of any module-level statement, so the credential block and
all agent construction sit behind devui_parse. -/
def devui_startup (env : String → Option String) : Except PyError Agent := do
  devui_parse
  let cfg ← configure_client env
  pure { name := "TimeWeatherAgent", hasConfig := cfg }

/- ---------------------------------------------------------------
Interactive session loop, shared control flow of
run_interactive_conversation (time_weather_agent.py lines 131-157) and
main_console (time_weather_agent_devui.py lines 185-206)
--------------------------------------------------------------- -/

/-- Observable events of one console session. -/
inductive Event where
  | threadCreated (tid : Nat)
  | runCalled (input : String) (tid : Nat)
  | replyPrinted (text : String)
  | errorPrinted (msg : String)
  | goodbye
deriving DecidableEq, Repr

/-- Exit sentinels checked by the loop: user_input.lower() in this list. -/
def EXIT_SENTINELS : List String := ["quit", "exit", "q"]

/-- One iteration of the while-True body on a raw console line: strip,
skip empty input, break on a sentinel, otherwise call agent.run on the
session thread; an exception from agent.run is printed and the loop
continues. Returns the events of the iteration and whether the loop
goes on. The behaviour of agent.run enters as agentRun, indexed by the
turn position. -/
def loop_body (agentRun : Nat → String → Nat → Except String String)
    (tid : Nat) (turn : Nat) (raw : String) : List Event × Bool :=
  let user_input := py_strip raw
  if user_input = "" then ([], true)
  else if EXIT_SENTINELS.contains (py_lower user_input) then ([Event.goodbye], false)
  else
    match agentRun turn user_input tid with
    | Except.ok text =>
        ([Event.runCalled user_input tid, Event.replyPrinted text], true)
    | Except.error e =>
        ([Event.runCalled user_input tid, Event.errorPrinted e], true)

/-- The while-True loop over the remaining console lines. -/
def session_loop (agentRun : Nat → String → Nat → Except String String)
    (tid : Nat) (turn : Nat) : List String → List Event
  | [] => []
  | raw :: rest =>
    match loop_body agentRun tid turn raw with
    | (evs, true) => evs ++ session_loop agentRun tid (turn + 1) rest
    | (evs, false) => evs

/-- Embedding of run_interactive_conversation and main_console: one
thread (id 0) is created by agent.get_new_thread before the loop, then
every turn runs on it; the thread is a local variable dropped when the
coroutine returns, so the session result is only the event trace. -/
def run_interactive_conversation (agentRun : Nat → String → Nat → Except String String)
    (inputs : List String) : List Event :=
  Event.threadCreated 0 :: session_loop agentRun 0 0 inputs

/-- Recogniser for thread-creation events. -/
def isThreadCreation : Event → Bool
  | Event.threadCreated _ => true
  | _ => false

/- ---------------------------------------------------------------
Demo driver, time_weather_agent.py lines 160-212
--------------------------------------------------------------- -/

/-- Top-level names bound in the module time_weather_agent.py (imports,
module-level assignments and function defs), in source order. -/
def module_defined_names : List String :=
  ["os", "asyncio", "Annotated", "datetime", "pytz", "Field", "AsyncOpenAI",
   "load_dotenv", "ChatAgent", "HostedMCPTool", "MCPStreamableHTTPTool",
   "OpenAIChatClient", "token", "endpoint", "async_openai_client",
   "completion_model_name", "medium_model_name", "small_model_name",
   "completion_client", "medium_client", "small_client",
   "USER_MCP_URL", "WEATHER_MCP_URL", "AGENT_INSTRUCTIONS",
   "run_interactive_conversation", "run_demo_conversation", "main"]

/-- Name resolution in the module scope: an unbound name raises NameError. -/
def resolve_name (names : List String) (n : String) : Except PyError String :=
  if names.contains n then Except.ok n else Except.error (PyError.nameError n)

/-- Evaluating the demo agent construction (time_weather_agent.py lines
169-187): building the tools list resolves the two local-tool names in
module scope before ChatAgent is applied. -/
def construct_demo_agent : Except PyError Agent := do
  let _ ← resolve_name module_defined_names "get_current_time_for_timezone"
  let _ ← resolve_name module_defined_names "get_timezone_for_city"
  pure { name := "TimeWeatherAgent",
         hasConfig := { token := "", endpoint := "" } }

/- ---------------------------------------------------------------
Spec-modelled parts: the LLM oracle and the core turn loop live in the
external model and agent_framework, not under src/
--------------------------------------------------------------- -/

/-- Messages accumulated on a Thread, as the spec data model names them. -/
inductive Message where
  | userUtterance (text : String)
  | toolCallResult (text : String)
  | agentReply (text : String)
deriving DecidableEq, Repr

/-- Modelled from the spec: how a single UserUtterance or ToolCallResult
asserts a location. The oracle is the external LLM; per
AGENT_INSTRUCTIONS it treats phrases such as "I am currently in [city]"
and "I moved to [city]" as location assertions. AgentReply messages
assert nothing. -/
def location_markers : List String := ["I am currently in ", "I moved to ", "I am in "]

/-- Text after a leading marker, when the marker is present. -/
def marker_match (m t : String) : Option String :=
  if m.data.isPrefixOf t.data then some (String.mk (t.data.drop m.data.length)) else none

/-- Modelled from the spec: the location (if any) asserted by one message. -/
def asserted_location : Message → Option String
  | Message.userUtterance t => (location_markers.filterMap (fun m => marker_match m t)).head?
  | Message.toolCallResult t => (location_markers.filterMap (fun m => marker_match m t)).head?
  | Message.agentReply _ => none

/-- Modelled from the spec: the most recent UserUtterance or
ToolCallResult in the Thread that asserts a location supersedes all
earlier ones; the turn resolves the location to that assertion. -/
def resolve_location (thread : List Message) : Option String :=
  (thread.filterMap asserted_location).getLast?

/-- The session Thread of the location-override scenario. -/
def override_thread : List Message :=
  [Message.userUtterance "I am currently in London",
   Message.userUtterance "I moved to Berlin",
   Message.userUtterance "What is the weather like today?"]

/-- Oracle decisions on a Deciding step, as the spec names them. -/
inductive Decision where
  | toolCall (name : String) (args : String)
  | finalReply (text : String)
deriving DecidableEq, Repr

/-- Fatal turn failures of the core loop. -/
inductive TurnError where
  | toolLoopExceeded
deriving DecidableEq, Repr

/-- Modelled from the spec: the Deciding-Dispatching turn loop of the
core agent (implemented inside agent_framework, not under src/). From
state Deciding the oracle either returns a FinalReply, ending the turn,
or requests a tool call, which is dispatched (one round trip) before
deciding again; at most maxRounds round trips are allowed and exceeding
the bound fails the turn with ToolLoopExceededError. The oracle enters
as a function of the round index; the result pairs the list of
dispatched tool calls with the turn outcome. -/
def run_turn (oracle : Nat → Decision) :
    Nat → Nat → List (String × String) × Except TurnError String
  | round, 0 =>
    match oracle round with
    | Decision.finalReply text => ([], Except.ok text)
    | Decision.toolCall _ _ => ([], Except.error TurnError.toolLoopExceeded)
  | round, Nat.succ f =>
    match oracle round with
    | Decision.finalReply text => ([], Except.ok text)
    | Decision.toolCall name args =>
      let rec_result := run_turn oracle (round + 1) f
      ((name, args) :: rec_result.1, rec_result.2)

/-- A whole turn starts in Deciding at round 0 with the configured
maximum number of round trips available. -/
def run_turn_bounded (maxRounds : Nat) (oracle : Nat → Decision) :
    List (String × String) × Except TurnError String :=
  run_turn oracle 0 maxRounds

/- ---------------------------------------------------------------
Helper lemmas
--------------------------------------------------------------- -/

/-- Association-list lookup succeeds exactly on the listed keys. -/
theorem lookup_isSome_iff (l : List (String × String)) (k : String) :
    (l.lookup k).isSome ↔ k ∈ l.map Prod.fst := by
  induction l with
  | nil => simp [List.lookup]
  | cons p rest ih =>
    obtain ⟨a, b⟩ := p
    by_cases h : k = a
    · subst h; simp [List.lookup]
    · have hb : (k == a) = false := by simp [h]
      simp [List.lookup, hb, ih, h]

/-- Events emitted by one loop iteration: never a thread creation, and
any agent.run call is on the thread the loop was given. -/
theorem loop_body_events (agentRun : Nat → String → Nat → Except String String)
    (tid turn : Nat) (raw : String) (ev : Event)
    (hev : ev ∈ (loop_body agentRun tid turn raw).1) :
    isThreadCreation ev = false ∧ ∀ u t, ev = Event.runCalled u t → t = tid := by
  unfold loop_body at hev
  by_cases h1 : py_strip raw = ""
  · simp [h1] at hev
  · simp only [h1, if_false] at hev
    by_cases h2 : py_lower (py_strip raw) ∈ EXIT_SENTINELS
    · simp [h2] at hev
      subst hev; exact ⟨rfl, by intro u t h; cases h⟩
    · simp only [List.contains, List.elem_eq_mem, decide_eq_true_eq, h2, if_false] at hev
      cases hrun : agentRun turn (py_strip raw) tid with
      | ok text =>
        rw [hrun] at hev
        simp at hev
        rcases hev with h | h <;> subst h
        · exact ⟨rfl, by intro u t h; cases h; rfl⟩
        · exact ⟨rfl, by intro u t h; cases h⟩
      | error e =>
        rw [hrun] at hev
        simp at hev
        rcases hev with h | h <;> subst h
        · exact ⟨rfl, by intro u t h; cases h; rfl⟩
        · exact ⟨rfl, by intro u t h; cases h⟩

/-- Events emitted by the session loop: never a thread creation, and
any agent.run call is on the thread the loop was given. -/
theorem session_loop_events (agentRun : Nat → String → Nat → Except String String)
    (tid : Nat) (inputs : List String) :
    ∀ turn ev, ev ∈ session_loop agentRun tid turn inputs →
      isThreadCreation ev = false ∧ ∀ u t, ev = Event.runCalled u t → t = tid := by
  induction inputs with
  | nil => intro turn ev hev; simp [session_loop] at hev
  | cons raw rest ih =>
    intro turn ev hev
    unfold session_loop at hev
    cases hbody : loop_body agentRun tid turn raw with
    | mk evs cont =>
      rw [hbody] at hev
      cases cont with
      | true =>
        simp at hev
        rcases hev with h | h
        · exact loop_body_events agentRun tid turn raw ev (by rw [hbody]; exact h)
        · exact ih (turn + 1) ev h
      | false =>
        exact loop_body_events agentRun tid turn raw ev (by rw [hbody]; exact hev)

/- ---------------------------------------------------------------
Claim theorems
--------------------------------------------------------------- -/

/-- C6: for every input string, get_current_time_for_timezone returns a
non-empty string and never raises; a valid IANA timezone yields the
success message containing the timezone name and the current time,
otherwise the result is the failure message that begins "Could not
determine time for timezone" and carries the timezone name and the
underlying error message. -/
theorem get_current_time_total :
    ∀ (pytz_timezone : String → Except String Unit) (time_str date_str tz : String),
      (get_current_time_for_timezone pytz_timezone time_str date_str tz).data ≠ [] ∧
      (pytz_timezone tz = Except.ok () →
        get_current_time_for_timezone pytz_timezone time_str date_str tz =
          "The current time in " ++ tz ++ " is " ++ time_str ++
            " on " ++ date_str ++ ".") ∧
      (∀ e, pytz_timezone tz = Except.error e →
        (get_current_time_for_timezone pytz_timezone time_str date_str tz =
          "Could not determine time for timezone " ++ sq ++ tz ++ sq ++ ": " ++ e) ∧
        ∃ r, (get_current_time_for_timezone pytz_timezone time_str date_str tz).data =
          "Could not determine time for timezone".data ++ r) := by
  intro pytz_timezone time_str date_str tz
  cases hp : pytz_timezone tz with
  | ok u =>
    cases u
    refine ⟨?_, ?_, ?_⟩
    · unfold get_current_time_for_timezone
      rw [hp]
      simp [String.data_append]
    · intro _
      unfold get_current_time_for_timezone
      rw [hp]
    · intro e he
      exact Except.noConfusion he
  | error e0 =>
    refine ⟨?_, ?_, ?_⟩
    · unfold get_current_time_for_timezone
      rw [hp]
      simp [String.data_append]
    · intro hok
      exact Except.noConfusion hok
    · intro e he
      injection he with h
      subst h
      constructor
      · unfold get_current_time_for_timezone
        rw [hp]
      · refine ⟨[' '] ++ sq.data ++ tz.data ++ sq.data ++ (": ").data ++ e0.data, ?_⟩
        unfold get_current_time_for_timezone
        rw [hp]
        have hA : ("Could not determine time for timezone ").data =
          ("Could not determine time for timezone").data ++ [' '] := rfl
        simp [String.data_append, List.append_assoc]

/-- C6 witness: the theorem applied to a concrete pytz model, time
rendering and timezone names, on both the valid and the invalid side. -/
theorem get_current_time_total_witness :
    ((fun tzn => if tzn = "Europe/Berlin" then Except.ok ()
        else Except.error "UnknownTimeZoneError") "Europe/Berlin" = Except.ok ()) ∧
    get_current_time_for_timezone
        (fun tzn => if tzn = "Europe/Berlin" then Except.ok ()
          else Except.error "UnknownTimeZoneError")
        "10:00:00 AM" "Monday, October 12, 2026" "Europe/Berlin" =
      "The current time in " ++ "Europe/Berlin" ++ " is " ++ "10:00:00 AM" ++
        " on " ++ "Monday, October 12, 2026" ++ "." ∧
    get_current_time_for_timezone
        (fun tzn => if tzn = "Europe/Berlin" then Except.ok ()
          else Except.error "UnknownTimeZoneError")
        "10:00:00 AM" "Monday, October 12, 2026" "Mars/Olympus" =
      "Could not determine time for timezone " ++ sq ++ "Mars/Olympus" ++ sq ++
        ": " ++ "UnknownTimeZoneError" :=
  ⟨rfl,
   (get_current_time_total _ "10:00:00 AM" "Monday, October 12, 2026" "Europe/Berlin").2.1 rfl,
   ((get_current_time_total _ "10:00:00 AM" "Monday, October 12, 2026" "Mars/Olympus").2.2
      "UnknownTimeZoneError" rfl).1⟩

/-- C7: get_timezone_for_city is total and its branch outcome depends
only on city.lower().strip(); it returns the success message naming the
mapped IANA timezone exactly when that normalised name is one of the
seven table keys (london, berlin, new york, tokyo, sydney, seattle,
paris), and otherwise the "Unknown city" failure message, so lookup is
case- and surrounding-whitespace-insensitive. -/
theorem get_timezone_for_city_characterisation :
    (∀ c₁ c₂, city_key c₁ = city_key c₂ → tz_lookup c₁ = tz_lookup c₂) ∧
    (city_timezones.map Prod.fst =
      ["london", "berlin", "new york", "tokyo", "sydney", "seattle", "paris"]) ∧
    (∀ city tz, tz_lookup city = some tz →
      get_timezone_for_city city = "The timezone for " ++ city ++ " is " ++ tz ++ ".") ∧
    (∀ city, tz_lookup city = none →
      get_timezone_for_city city =
        "Unknown city " ++ sq ++ city ++ sq ++ ". Try a major city name.") ∧
    (∀ city, (tz_lookup city).isSome ↔ city_key city ∈ city_timezones.map Prod.fst) := by
  refine ⟨?_, rfl, ?_, ?_, ?_⟩
  · intro c₁ c₂ h; unfold tz_lookup; rw [h]
  · intro city tz h; unfold get_timezone_for_city; rw [h]
  · intro city h; unfold get_timezone_for_city; rw [h]
  · intro city; exact lookup_isSome_iff city_timezones (city_key city)

/-- C7 witness: the theorem applied to concrete cities shows the
case- and whitespace-insensitive hit and the miss. -/
theorem get_timezone_for_city_characterisation_witness :
    tz_lookup "  LONDON " = some "Europe/London" ∧
    get_timezone_for_city "  LONDON " =
      "The timezone for " ++ "  LONDON " ++ " is " ++ "Europe/London" ++ "." ∧
    tz_lookup "Oslo" = none ∧
    get_timezone_for_city "Oslo" =
      "Unknown city " ++ sq ++ "Oslo" ++ sq ++ ". Try a major city name." :=
  ⟨rfl,
   get_timezone_for_city_characterisation.2.2.1 "  LONDON " "Europe/London" rfl,
   rfl,
   get_timezone_for_city_characterisation.2.2.2.1 "Oslo" rfl⟩

/-- Behaviour of the credential block as written (its text is identical
in both files, and it actually runs in time_weather_agent.py):
GITHUB_TOKEN always wins with the fixed GitHub endpoint even when the
Azure variables are also set; the Azure key and endpoint are used only
when GITHUB_TOKEN is absent; with neither key set, startup of
time_weather_agent.py fails with the ValueError "No API key found..."
and no agent is constructed. -/
theorem credential_selection :
    ∀ env : String → Option String,
      (∀ t, env "GITHUB_TOKEN" = some t →
        configure_client env =
          Except.ok { token := t, endpoint := "https://models.github.ai/inference" }) ∧
      (∀ k ep, env "GITHUB_TOKEN" = none → env "AZURE_OPENAI_API_KEY" = some k →
        env "AZURE_OPENAI_ENDPOINT" = some ep →
        configure_client env = Except.ok { token := k, endpoint := ep }) ∧
      (env "GITHUB_TOKEN" = none → env "AZURE_OPENAI_API_KEY" = none →
        startup_then_agent env =
          Except.error (PyError.valueError
            "No API key found. Set GITHUB_TOKEN or AZURE_OPENAI_API_KEY.")) := by
  intro env
  refine ⟨?_, ?_, ?_⟩
  · intro t ht; unfold configure_client; rw [ht]
  · intro k ep hg ha he; unfold configure_client; rw [hg, ha, he]
  · intro hg ha
    unfold startup_then_agent configure_client
    rw [hg, ha]
    rfl

/-- Concrete environments for credential_selection: with both keys set,
GitHub wins; with neither, startup of time_weather_agent.py fails with
the ValueError before any agent exists. -/
theorem credential_selection_witness :
    configure_client (fun k =>
        if k = "GITHUB_TOKEN" then some "gh-tok"
        else if k = "AZURE_OPENAI_API_KEY" then some "az-key"
        else if k = "AZURE_OPENAI_ENDPOINT" then some "https://az.example" else none) =
      Except.ok { token := "gh-tok", endpoint := "https://models.github.ai/inference" } ∧
    startup_then_agent (fun _ => none) =
      Except.error (PyError.valueError
        "No API key found. Set GITHUB_TOKEN or AZURE_OPENAI_API_KEY.") :=
  ⟨(credential_selection _).1 "gh-tok" rfl,
   (credential_selection (fun _ => none)).2.2 rfl rfl⟩

/-- C9: the claim fails on one of its cited sources. In
time_weather_agent_devui.py the tools list opened at line 135 of
create_time_weather_agent is never closed, so CPython raises
SyntaxError while compiling the module, before the credential block
can run: in every environment, the no-key startup of that file fails
with SyntaxError and never with the claimed ValueError. In
time_weather_agent.py, which parses, the intended behaviour holds: no
key yields the ValueError before any agent is constructed. -/
theorem devui_startup_syntax_error :
    (∀ env : String → Option String,
      devui_startup env = Except.error (PyError.syntaxError
        "closing parenthesis does not match opening bracket")) ∧
    devui_startup (fun _ => none) ≠
      Except.error (PyError.valueError
        "No API key found. Set GITHUB_TOKEN or AZURE_OPENAI_API_KEY.") ∧
    startup_then_agent (fun _ => none) =
      Except.error (PyError.valueError
        "No API key found. Set GITHUB_TOKEN or AZURE_OPENAI_API_KEY.") :=
  ⟨fun _ => rfl,
   fun h => PyError.noConfusion (Except.error.inj h),
   rfl⟩

/-- C10: every weather-supported city named in AGENT_INSTRUCTIONS
(Seattle, New York, London, Berlin, Tokyo, Sydney) is in
the table of get_timezone_for_city, and the lookup for each returns the
success message naming its IANA timezone, never the "Unknown city"
failure. -/
theorem supported_cities_in_table :
    (["Seattle", "New York", "London", "Berlin", "Tokyo", "Sydney"].all
      (fun c => (tz_lookup c).isSome)) = true ∧
    get_timezone_for_city "Seattle" = "The timezone for Seattle is America/Los_Angeles." ∧
    get_timezone_for_city "New York" = "The timezone for New York is America/New_York." ∧
    get_timezone_for_city "London" = "The timezone for London is Europe/London." ∧
    get_timezone_for_city "Berlin" = "The timezone for Berlin is Europe/Berlin." ∧
    get_timezone_for_city "Tokyo" = "The timezone for Tokyo is Asia/Tokyo." ∧
    get_timezone_for_city "Sydney" = "The timezone for Sydney is Australia/Sydney." :=
  ⟨rfl, rfl, rfl, rfl, rfl, rfl, rfl⟩

/-- C3: within one interactive session exactly one Thread is created,
before the input loop, and every agent.run call in the session is
passed that same Thread; the session result is only its event trace,
so the Thread is dropped, not persisted, on exit. -/
theorem single_thread_per_session :
    ∀ (agentRun : Nat → String → Nat → Except String String) (inputs : List String),
      ((run_interactive_conversation agentRun inputs).filter isThreadCreation =
        [Event.threadCreated 0]) ∧
      (∀ u tid, Event.runCalled u tid ∈ run_interactive_conversation agentRun inputs →
        tid = 0) := by
  intro agentRun inputs
  constructor
  · have hnil : (session_loop agentRun 0 0 inputs).filter isThreadCreation = [] := by
      apply List.filter_eq_nil_iff.mpr
      intro ev hev
      simp [(session_loop_events agentRun 0 inputs 0 ev hev).1]
    show (Event.threadCreated 0 :: session_loop agentRun 0 0 inputs).filter
      isThreadCreation = [Event.threadCreated 0]
    rw [show (Event.threadCreated 0 :: session_loop agentRun 0 0 inputs).filter
        isThreadCreation =
      Event.threadCreated 0 :: (session_loop agentRun 0 0 inputs).filter
        isThreadCreation from rfl, hnil]
  · intro u tid hmem
    rcases List.mem_cons.mp hmem with h | h
    · cases h
    · exact (session_loop_events agentRun 0 inputs 0 _ h).2 u tid rfl

/-- C3 witness: a concrete two-line session, with the theorem applied
to its trace. -/
theorem single_thread_per_session_witness :
    ((run_interactive_conversation (fun _ u _ => Except.ok ("You said " ++ u))
        ["hello", "quit"]).filter isThreadCreation = [Event.threadCreated 0]) ∧
    Event.runCalled "hello" 0 ∈
      run_interactive_conversation (fun _ u _ => Except.ok ("You said " ++ u))
        ["hello", "quit"] ∧
    (0 : Nat) = 0 := by
  have htrace : run_interactive_conversation (fun _ u _ => Except.ok ("You said " ++ u))
      ["hello", "quit"] =
      [Event.threadCreated 0, Event.runCalled "hello" 0,
       Event.replyPrinted "You said hello", Event.goodbye] := rfl
  have hmem : Event.runCalled "hello" 0 ∈
      run_interactive_conversation (fun _ u _ => Except.ok ("You said " ++ u))
        ["hello", "quit"] := by rw [htrace]; simp
  exact ⟨(single_thread_per_session _ _).1, hmem,
    (single_thread_per_session (fun _ u _ => Except.ok ("You said " ++ u))
      ["hello", "quit"]).2 "hello" 0 hmem⟩

/-- C4: a turn on which agent.run raises aborts only that turn: the
error is printed (never swallowed), the loop goes on to the next raw
input, and the remaining turns run on the same thread. -/
theorem turn_failure_isolated :
    ∀ (agentRun : Nat → String → Nat → Except String String) (tid turn : Nat)
      (raw : String) (rest : List String) (e : String),
      py_strip raw ≠ "" →
      py_lower (py_strip raw) ∉ EXIT_SENTINELS →
      agentRun turn (py_strip raw) tid = Except.error e →
      session_loop agentRun tid turn (raw :: rest) =
        Event.runCalled (py_strip raw) tid :: Event.errorPrinted e ::
          session_loop agentRun tid (turn + 1) rest := by
  intro agentRun tid turn raw rest e h1 h2 h3
  conv_lhs => rw [session_loop]
  simp [loop_body, h1, h2, h3]

/-- C4 witness: a session whose first turn fails with a connection
error, evaluated through the theorem at concrete inputs. -/
theorem turn_failure_isolated_witness :
    py_strip "hello" ≠ "" ∧
    py_lower (py_strip "hello") ∉ EXIT_SENTINELS ∧
    session_loop (fun _ _ _ => Except.error "Connection refused") 0 0 ["hello", "quit"] =
      Event.runCalled (py_strip "hello") 0 :: Event.errorPrinted "Connection refused" ::
        session_loop (fun _ _ _ => Except.error "Connection refused") 0 1 ["quit"] :=
  ⟨by decide, by decide,
   turn_failure_isolated (fun _ _ _ => Except.error "Connection refused") 0 0
     "hello" ["quit"] "Connection refused" (by decide) (by decide) rfl⟩

/-- C8: exit sentinels are purely a harness concern: a stripped input
whose lowercase form is quit, exit or q ends the loop without calling
agent.run (so nothing is appended to the Thread), and a
whitespace-only input is skipped without reaching agent.run. -/
theorem exit_sentinel_handling :
    ∀ (agentRun : Nat → String → Nat → Except String String) (tid turn : Nat)
      (raw : String) (rest : List String),
      (py_lower (py_strip raw) ∈ EXIT_SENTINELS →
        session_loop agentRun tid turn (raw :: rest) = [Event.goodbye]) ∧
      (py_strip raw = "" →
        session_loop agentRun tid turn (raw :: rest) =
          session_loop agentRun tid (turn + 1) rest) := by
  intro agentRun tid turn raw rest
  constructor
  · intro h
    have hne : py_strip raw ≠ "" := by
      intro h0
      exact absurd (h0 ▸ h) (by decide)
    conv_lhs => rw [session_loop]
    simp [loop_body, hne, h]
  · intro h
    conv_lhs => rw [session_loop]
    simp [loop_body, h]

/-- C8 witness: the sentinel "QUIT " ends a session that still has
pending input, and a whitespace-only line is skipped, both by the
theorem at concrete inputs. -/
theorem exit_sentinel_handling_witness :
    py_lower (py_strip " QUIT ") ∈ EXIT_SENTINELS ∧
    session_loop (fun _ u _ => Except.ok u) 0 0 [" QUIT ", "hello"] = [Event.goodbye] ∧
    py_strip "   " = "" ∧
    session_loop (fun _ u _ => Except.ok u) 0 0 ["   ", "quit"] =
      session_loop (fun _ u _ => Except.ok u) 0 1 ["quit"] :=
  ⟨by decide,
   (exit_sentinel_handling (fun _ u _ => Except.ok u) 0 0 " QUIT " ["hello"]).1 (by decide),
   by decide,
   (exit_sentinel_handling (fun _ u _ => Except.ok u) 0 0 "   " ["quit"]).2 (by decide)⟩

/-- C2: evaluating the agent construction of the demo driver in
time_weather_agent.py raises NameError, because the local tools it
lists (get_current_time_for_timezone, get_timezone_for_city) are
defined only in time_weather_agent_devui.py, not in this module; the
scripted driver therefore cannot construct its agent, contradicting
the claim that it submits utterances like the interactive driver. -/
theorem demo_agent_construction_raises :
    construct_demo_agent = Except.error (PyError.nameError "get_current_time_for_timezone") ∧
    module_defined_names.contains "get_current_time_for_timezone" = false ∧
    module_defined_names.contains "get_timezone_for_city" = false :=
  ⟨rfl, rfl, rfl⟩

/-- An oracle that never returns a FinalReply drives run_turn to the
loop-bound failure, dispatching once per remaining round. -/
theorem run_turn_always_toolCall (oracle : Nat → Decision)
    (h : ∀ r, ∃ n a, oracle r = Decision.toolCall n a) :
    ∀ fuel round,
      (run_turn oracle round fuel).2 = Except.error TurnError.toolLoopExceeded ∧
      (run_turn oracle round fuel).1.length = fuel := by
  intro fuel
  induction fuel with
  | zero =>
    intro round
    obtain ⟨n, a, hr⟩ := h round
    simp [run_turn, hr]
  | succ f ih =>
    intro round
    obtain ⟨n, a, hr⟩ := h round
    simp [run_turn, hr, (ih (round + 1)).1, (ih (round + 1)).2]

/-- C5: with an oracle that on every Deciding step requests another
tool call and never returns FinalReply, the turn fails with
ToolLoopExceededError after exactly the configured maximum number of
Deciding-Dispatching round trips, neither earlier nor later, and the
failure is the surfaced outcome of the turn rather than a silent
truncation. -/
theorem tool_loop_bound :
    ∀ (maxRounds : Nat) (oracle : Nat → Decision),
      (∀ r, ∃ n a, oracle r = Decision.toolCall n a) →
      (run_turn_bounded maxRounds oracle).2 = Except.error TurnError.toolLoopExceeded ∧
      (run_turn_bounded maxRounds oracle).1.length = maxRounds := by
  intro maxRounds oracle h
  exact run_turn_always_toolCall oracle h maxRounds 0

/-- C5 witness: the recommended bound of 8 with a concrete runaway
oracle, via the theorem. -/
theorem tool_loop_bound_witness :
    (run_turn_bounded 8 (fun _ => Decision.toolCall "get_weather_at_location" "Berlin")).2 =
      Except.error TurnError.toolLoopExceeded ∧
    (run_turn_bounded 8 (fun _ => Decision.toolCall "get_weather_at_location" "Berlin")).1.length = 8 :=
  tool_loop_bound 8 (fun _ => Decision.toolCall "get_weather_at_location" "Berlin")
    (fun _ => ⟨"get_weather_at_location", "Berlin", rfl⟩)

/-- C1: on the Thread holding "I am currently in London" then
"I moved to Berlin" then the weather question, the location resolves
to Berlin and not to London; in general the most recent
location-asserting message in the Thread supersedes all earlier ones. -/
theorem location_override :
    resolve_location override_thread = some "Berlin" ∧
    resolve_location override_thread ≠ some "London" ∧
    (∀ (thread : List Message) (m : Message) (loc : String),
      asserted_location m = some loc →
      resolve_location (thread ++ [m]) = some loc) := by
  have h1 : resolve_location override_thread = some "Berlin" := rfl
  refine ⟨h1, ?_, ?_⟩
  · rw [h1]
    decide
  · intro thread m loc h
    unfold resolve_location
    rw [List.filterMap_append]
    have hm : List.filterMap asserted_location [m] = [loc] := by simp [h]
    rw [hm]
    exact List.getLast?_concat _

/-- C1 witness: appending one more location assertion supersedes the
Berlin resolution, via the theorem at a concrete thread and message. -/
theorem location_override_witness :
    asserted_location (Message.userUtterance "I moved to Tokyo") = some "Tokyo" ∧
    resolve_location (override_thread ++ [Message.userUtterance "I moved to Tokyo"]) =
      some "Tokyo" :=
  ⟨rfl,
   location_override.2.2 override_thread (Message.userUtterance "I moved to Tokyo")
     "Tokyo" rfl⟩

end TimeWeather

